import Mathlib

/-!
Verification of the cancellation-masking adaptor in
src/include/unifex/unstoppable.hpp.

The header defines three cooperating types plus a customization-point object:

* detail::unstoppable_source_receiver, the inner forwarding receiver passed
  to the wrapped source sender; it masks a done (cancellation) completion as
  a value (success) completion and relays value and error completions
  outward to the outer receiver held by the operation state;
* detail::unstoppable_operation, the operation state, which connects the
  wrapped source to a fresh inner receiver inside its constructor, storing
  the nested operation state in a manually managed slot guarded by the flag
  isSourceOpConstructed_;
* unstoppable_sender, the adaptor sender, which declares its value
  completions as a single empty tuple and its error completions as those of
  the wrapped source;
* the unstoppable customization-point object, which prefers a tag_invoke
  customization on the source type and otherwise wraps the source in an
  unstoppable_sender.

The embedding below models completion signals, the bodies and exception
specifications of the three relay methods, the SFINAE capability gate on the
done relay, the move constructor of the inner receiver, the generic
tag_invoke forwarder, the fallible operation-state constructor together with
the C++ unwinding semantics for a partially constructed object, and the
dispatch of the customization-point object.
-/

/-- A completion signal delivered by the wrapped source sender to the inner
receiver: success carrying no values, cancellation (done), or a typed
error. The adaptor only supports sources whose success completion carries no
values, so the value constructor carries none. -/
inductive SourceCompletion (E : Type) where
  | value : SourceCompletion E
  | done : SourceCompletion E
  | error (e : E) : SourceCompletion E
deriving DecidableEq, Repr

/-- A completion call the inner receiver can make on the outer receiver.
The set_value constructor carries no values because every success relay in
the header invokes unifex::set_value with the receiver alone (lines 55 and
63). The set_done constructor exists so that the absence of cancellation
forwarding is a provable fact rather than a typing accident. -/
inductive OuterCall (E : Type) where
  | set_value : OuterCall E
  | set_done : OuterCall E
  | set_error (e : E) : OuterCall E
deriving DecidableEq, Repr

/-- The outer receiver as the relay bodies observe it: each completion
channel either returns normally or raises an exception of type Exc. -/
structure OuterReceiver (E Exc : Type) where
  on_set_value : Except Exc Unit
  on_set_error : E → Except Exc Unit

/-- How a call of an inner-receiver method finishes: it returns normally,
an exception propagates out of it, or an exception reaches a noexcept
boundary and the program is terminated. -/
inductive MethodOutcome (Exc : Type) where
  | normal : MethodOutcome Exc
  | raised (e : Exc) : MethodOutcome Exc
  | terminated : MethodOutcome Exc
deriving DecidableEq, Repr

/-- Body of unstoppable_source_receiver::set_value (lines 53-56), after the
non-null assertion on op_: it invokes unifex::set_value on the moved-out
outer receiver. The method is not declared noexcept, so an exception raised
by the outer set_value propagates out of it. The second component records
the calls made on the outer receiver. -/
def inner_set_value {E Exc : Type} (r : OuterReceiver E Exc) :
    MethodOutcome Exc × List (OuterCall E) :=
  match r.on_set_value with
  | Except.ok _ => (MethodOutcome.normal, [OuterCall.set_value])
  | Except.error exc => (MethodOutcome.raised exc, [OuterCall.set_value])

/-- Body of unstoppable_source_receiver::set_done (lines 58-64), after the
non-null assertion on op_: it invokes unifex::set_value (not set_done) on
the moved-out outer receiver, masking cancellation as success. The method is
declared noexcept, so an exception raised by the outer set_value cannot
propagate; it terminates the program instead. -/
def inner_set_done {E Exc : Type} (r : OuterReceiver E Exc) :
    MethodOutcome Exc × List (OuterCall E) :=
  match r.on_set_value with
  | Except.ok _ => (MethodOutcome.normal, [OuterCall.set_value])
  | Except.error _ => (MethodOutcome.terminated, [OuterCall.set_value])

/-- Body of unstoppable_source_receiver::set_error (lines 66-72), after the
non-null assertion on op_: it invokes unifex::set_error on the moved-out
outer receiver with the error forwarded unchanged. The method is declared
noexcept, so an exception cannot propagate out of it. -/
def inner_set_error {E Exc : Type} (r : OuterReceiver E Exc) (err : E) :
    MethodOutcome Exc × List (OuterCall E) :=
  match r.on_set_error err with
  | Except.ok _ => (MethodOutcome.normal, [OuterCall.set_error err])
  | Except.error _ => (MethodOutcome.terminated, [OuterCall.set_error err])

/-- Dispatch of one source completion to the corresponding inner-receiver
method, as the wrapped source does when it completes. -/
def deliver {E Exc : Type} (r : OuterReceiver E Exc) :
    SourceCompletion E → MethodOutcome Exc × List (OuterCall E)
  | SourceCompletion.value => inner_set_value r
  | SourceCompletion.done => inner_set_done r
  | SourceCompletion.error e => inner_set_error r e

/-- Timing of the nested completion relative to the start call: either the
wrapped source completes synchronously inside start, or asynchronously
later. The header contains no branch on timing, so the relay behavior is
the same function of the completion in both cases. -/
inductive CompletionTiming where
  | syncInStart : CompletionTiming
  | asyncLater : CompletionTiming
deriving DecidableEq, Repr

/-- The calls the outer receiver observes over one run of the adapted
operation state, given the list of completions the wrapped source delivers
(the sender contract makes that list a singleton) and the timing of the
completion, which the code never inspects. -/
def runOperationState {E Exc : Type} (timing : CompletionTiming)
    (r : OuterReceiver E Exc) (cs : List (SourceCompletion E)) :
    List (OuterCall E) :=
  match timing with
  | CompletionTiming.syncInStart => cs.flatMap (fun c => (deliver r c).2)
  | CompletionTiming.asyncLater => cs.flatMap (fun c => (deliver r c).2)

/-- Number of calls in a log that land on the success or error channel of
the outer receiver (cancellation calls excluded). -/
def countValueError {E : Type} (log : List (OuterCall E)) : Nat :=
  log.countP (fun c =>
    match c with
    | OuterCall.set_value => true
    | OuterCall.set_error _ => true
    | OuterCall.set_done => false)

/-- Build-time capability facts about the outer receiver type, as consulted
by the enable_if gates of the header: whether unifex::set_done is invocable
on the outer receiver (line 60) and whether unifex::set_error is invocable
on it with a given error type (line 68). -/
structure ReceiverCaps (E : Type) where
  set_done_invocable : Bool
  set_error_invocable : E → Bool

/-- The SFINAE-gated set_done overload of the inner receiver (lines 58-64):
the overload participates exactly when unifex::set_done is invocable on the
outer receiver type; when it participates, its body is inner_set_done. An
absent overload is modelled as none. -/
def set_done_overload {E Exc : Type} (caps : ReceiverCaps E)
    (r : OuterReceiver E Exc) :
    Option (MethodOutcome Exc × List (OuterCall E)) :=
  if caps.set_done_invocable then some (inner_set_done r) else none

/-- The operation state as seen through the back-reference of the inner
receiver: it exposes the stored outer receiver (member receiver_,
line 135). -/
structure OpStateView (ρ : Type) where
  receiver_ : ρ

/-- The data of unstoppable_source_receiver (lines 43-98): a nullable
back-reference op_ to its operation state. The null pointer is modelled as
none; a non-null pointer is modelled by the state it refers to. -/
structure unstoppable_source_receiver (ρ : Type) where
  op_ : Option (OpStateView ρ)

/-- The move constructor of the inner receiver (lines 49-51):
op_(std::exchange(other.op_, \x7b\x7d)). The result pairs the newly
constructed instance with the moved-from instance as it stands
afterwards. -/
def moveConstruct {ρ : Type} (other : unstoppable_source_receiver ρ) :
    unstoppable_source_receiver ρ × unstoppable_source_receiver ρ :=
  ({ op_ := other.op_ }, { op_ := none })

/-- get_receiver (lines 92-95): asserts that op_ is non-null and returns
the outer receiver stored in the operation state. A null back-reference is
an assertion failure, modelled as none. -/
def get_receiver {ρ : Type} (r : unstoppable_source_receiver ρ) : Option ρ :=
  r.op_.map (fun op => op.receiver_)

/-- The generic tag_invoke forwarder of the inner receiver (lines 75-80):
a customization-point object other than the three completion signals,
applied to a const inner receiver with arguments, is forwarded as
cpo(r.get_receiver(), args...) and its result returned unchanged. The
arguments are modelled as one packed argument. -/
def tagInvokeForward {ρ α β : Type} (cpo : ρ → α → β)
    (r : unstoppable_source_receiver ρ) (arg : α) : Option β :=
  (get_receiver r).map (fun recv => cpo recv arg)

/-- The fully constructed operation state unstoppable_operation
(lines 100-138): the stored source and receiver, the liveness flag
isSourceOpConstructed_, and the manually managed slot sourceOp_ holding the
nested operation state (some when constructed). -/
structure unstoppable_operation (σ ρ ν : Type) where
  source_ : σ
  receiver_ : ρ
  isSourceOpConstructed_ : Bool
  sourceOp_ : Option ν
deriving DecidableEq, Repr

/-- Outcome of running the constructor of unstoppable_operation
(lines 105-116). On success it yields the operation state. If the nested
connect throws, the exception propagates out of the constructor; the threw
constructor records the exception, the value of isSourceOpConstructed_
while the stack unwinds, whether the class destructor (lines 118-123) runs
on the partially constructed object, and how many nested operation states
were constructed and destructed during the whole episode. -/
inductive CtorResult (σ ρ ν Exc : Type) where
  | success (op : unstoppable_operation σ ρ ν) : CtorResult σ ρ ν Exc
  | threw (exc : Exc) (flagAtUnwind : Bool) (classDtorRan : Bool)
      (nestedConstructed : Nat) (nestedDestructed : Nat) : CtorResult σ ρ ν Exc
deriving DecidableEq, Repr

/-- The constructor of unstoppable_operation (lines 105-116). The member
initializers run first, so isSourceOpConstructed_ holds its default value
true (line 136) before the body runs. The body then connects the source to
a fresh inner receiver and constructs the nested operation state into the
slot. If connect throws, C++ destroys the already constructed members of
the partially constructed object but does not run its class destructor, so
sourceOp_.destruct() is never called; since connect threw, no nested
operation state was ever constructed. -/
def mkUnstoppableOperation {σ ρ ν Exc : Type} (connect : σ → Except Exc ν)
    (source : σ) (receiver : ρ) : CtorResult σ ρ ν Exc :=
  let flag := true
  match connect source with
  | Except.ok nested =>
      CtorResult.success
        { source_ := source
          receiver_ := receiver
          isSourceOpConstructed_ := flag
          sourceOp_ := some nested }
  | Except.error exc => CtorResult.threw exc flag false 0 0

/-- The destructor of unstoppable_operation (lines 118-123): it destructs
the nested operation state exactly when the liveness flag is set. The
result counts the nested destruct calls it performs, so a flag value of
false is precisely the state meaning that there is no nested object to
destroy. -/
def destructorNestedDestroys {σ ρ ν : Type}
    (op : unstoppable_operation σ ρ ν) : Nat :=
  if op.isSourceOpConstructed_ then 1 else 0

/-- The operation state a caller can invoke start (lines 125-127) on: only
a constructor run that returned successfully exposes one; after a throwing
constructor there is no object to start. -/
def startableOp {σ ρ ν Exc : Type} (res : CtorResult σ ρ ν Exc) :
    Option (unstoppable_operation σ ρ ν) :=
  match res with
  | CtorResult.success op => some op
  | CtorResult.threw _ _ _ _ _ => none

/-- The value of isSourceOpConstructed_ observed while the stack unwinds
out of a throwing constructor run, when there is one. -/
def flagAtUnwindOf {σ ρ ν Exc : Type} (res : CtorResult σ ρ ν Exc) :
    Option Bool :=
  match res with
  | CtorResult.success _ => none
  | CtorResult.threw _ flag _ _ _ => some flag

/-- The adaptor sender unstoppable_sender (lines 142-179): it stores the
wrapped source. -/
structure unstoppable_sender (σ : Type) where
  source_ : σ
deriving DecidableEq, Repr

/-- Declared completion shapes of a sender: value_types is a variant (outer
list) of tuples (inner lists) of value types, error_types a variant of
error types; concrete C++ types are abstracted by the parameters. -/
structure SenderShapes (α β : Type) where
  value_types : List (List α)
  error_types : List β
deriving DecidableEq, Repr

/-- The shapes declared by unstoppable_sender (lines 146-151): value_types
is Variant of the single empty Tuple, independent of the source, and
error_types is exactly the error_types of the wrapped source. -/
def unstoppableSenderShapes {α β : Type} (src : SenderShapes α β) :
    SenderShapes α β :=
  { value_types := [([] : List α)], error_types := src.error_types }

/-- Result of the unstoppable customization-point object: either the value
produced by the tag_invoke customization of the source type, or an
unstoppable_sender wrapping the source. -/
inductive CpoResult (σ τ : Type) where
  | customized (t : τ) : CpoResult σ τ
  | wrapped (s : unstoppable_sender σ) : CpoResult σ τ
deriving DecidableEq, Repr

/-- The unstoppable customization-point object (lines 181-202). The first
overload participates exactly when tag_invoke is invocable for the source
type (modelled by tagInvokeImpl being some implementation) and returns its
result. The second overload participates only when the first does not and
the decayed source type is constructible from the argument; it returns an
unstoppable_sender wrapping the source. When neither overload participates
the call does not compile, modelled as none. -/
def unstoppable_cpo {σ τ : Type} (tagInvokeImpl : Option (σ → τ))
    (constructible : Bool) (source : σ) : Option (CpoResult σ τ) :=
  match tagInvokeImpl with
  | some f => some (CpoResult.customized (f source))
  | none =>
      if constructible then
        some (CpoResult.wrapped { source_ := source })
      else none


/-- Every inner-receiver relay makes exactly one call landing on the
success or error channel of the outer receiver, whatever the completion is
and however the outer channels behave. -/
theorem countValueError_deliver {E Exc : Type} (r : OuterReceiver E Exc)
    (c : SourceCompletion E) : countValueError (deliver r c).2 = 1 := by
  cases c with
  | value =>
      cases h : r.on_set_value <;>
        simp [deliver, inner_set_value, countValueError, h]
  | done =>
      cases h : r.on_set_value <;>
        simp [deliver, inner_set_done, countValueError, h]
  | error e =>
      cases h : r.on_set_error e <;>
        simp [deliver, inner_set_error, countValueError, h]

/-- C1: if the wrapped source completes with cancellation, the inner
receiver relays exactly one success call carrying no values to the outer
receiver; the relay never emits a cancellation or error call and never
itself lets an exception propagate. -/
theorem done_masked_to_single_value {E Exc : Type} (r : OuterReceiver E Exc) :
    (deliver r SourceCompletion.done).2 = [OuterCall.set_value] ∧
    (∀ exc : Exc,
      (deliver r SourceCompletion.done).1 ≠ MethodOutcome.raised exc) ∧
    OuterCall.set_done ∉ (deliver r SourceCompletion.done).2 ∧
    ∀ e : E, OuterCall.set_error e ∉ (deliver r SourceCompletion.done).2 := by
  cases h : r.on_set_value <;>
    simp [deliver, inner_set_done, h]

/-- C2: over one run of the adapted operation state, with the completion
synchronous inside start or asynchronous later, in which the wrapped source
delivers exactly one completion, the outer receiver observes exactly one
call across its success and error channels. -/
theorem exactly_once_per_run {E Exc : Type} (timing : CompletionTiming)
    (r : OuterReceiver E Exc) (cs : List (SourceCompletion E))
    (h : cs.length = 1) :
    countValueError (runOperationState timing r cs) = 1 := by
  obtain ⟨c, rfl⟩ : ∃ c, cs = [c] := by
    match cs, h with
    | [c], _ => exact ⟨c, rfl⟩
  cases timing <;>
    simpa [runOperationState] using countValueError_deliver r c

/-- Concrete outer receiver with integer error and exception types whose
channels return normally. -/
def sampleReceiver : OuterReceiver Nat Nat :=
  { on_set_value := Except.ok (), on_set_error := fun _ => Except.ok () }

/-- Witness for C2 at a concrete run: a singleton completion list with a
cancellation completion, delivered synchronously. -/
theorem exactly_once_per_run_witness :
    ([SourceCompletion.done] : List (SourceCompletion Nat)).length = 1 ∧
    countValueError (runOperationState CompletionTiming.syncInStart
      sampleReceiver [SourceCompletion.done]) = 1 :=
  ⟨rfl, exactly_once_per_run CompletionTiming.syncInStart sampleReceiver
    [SourceCompletion.done] rfl⟩

/-- C3: an error completion carrying err is relayed as exactly one error
call carrying the same value; the adaptor never turns an error completion
into a success or cancellation call. -/
theorem error_relayed_unchanged {E Exc : Type} (r : OuterReceiver E Exc)
    (err : E) :
    (deliver r (SourceCompletion.error err)).2 = [OuterCall.set_error err] ∧
    OuterCall.set_value ∉ (deliver r (SourceCompletion.error err)).2 ∧
    OuterCall.set_done ∉ (deliver r (SourceCompletion.error err)).2 := by
  cases h : r.on_set_error err <;>
    simp [deliver, inner_set_error, h]

/-- A nested connect that always throws, with integer exceptions. -/
def failingConnect : Unit → Except Nat Unit := fun _ => Except.error 7

/-- C4 counterexample: when the nested connect throws, the liveness flag
observed during unwinding is true, the value the destructor reads as one
nested object to destroy, so the flag is not in the state meaning no nested
object to destroy (which is false). -/
theorem ctor_flag_counterexample :
    flagAtUnwindOf (mkUnstoppableOperation failingConnect () ()) = some true ∧
    flagAtUnwindOf (mkUnstoppableOperation failingConnect () ()) ≠
      some false ∧
    destructorNestedDestroys
      { source_ := (), receiver_ := (), isSourceOpConstructed_ := true,
        sourceOp_ := (none : Option Unit) } = 1 := by
  decide

/-- C4 (amended): if the nested connect throws during construction, the
exception propagates out of the constructor, no nested operation state is
ever constructed or destructed (so none leaks and none is destroyed twice),
the class destructor does not run on the partially constructed object, and
no operation state is exposed, so start is never invoked; the liveness flag
keeps its default value true during unwinding and is never consulted. -/
theorem ctor_throw_safe {σ ρ ν Exc : Type} (connect : σ → Except Exc ν)
    (source : σ) (receiver : ρ) (exc : Exc)
    (h : connect source = Except.error exc) :
    mkUnstoppableOperation connect source receiver =
      CtorResult.threw exc true false 0 0 ∧
    startableOp (mkUnstoppableOperation connect source receiver) = none := by
  simp [mkUnstoppableOperation, startableOp, h]

/-- Witness for the amended C4 at a concrete throwing connect. -/
theorem ctor_throw_safe_witness :
    failingConnect () = Except.error 7 ∧
    (mkUnstoppableOperation failingConnect () () =
        CtorResult.threw 7 true false 0 0 ∧
      startableOp (mkUnstoppableOperation failingConnect () ()) = none) :=
  ⟨rfl, ctor_throw_safe failingConnect () () 7 rfl⟩

/-- C5: the customization-point object returns the result of the
tag_invoke customization of the source whenever one exists, in particular
a self-customizing source is returned unchanged with no adaptor layer;
otherwise, when the decayed source type is constructible from the argument,
it returns an unstoppable_sender wrapping the source. -/
theorem unstoppable_cpo_dispatch {σ τ : Type} (f : σ → τ) (b : Bool)
    (source : σ) :
    unstoppable_cpo (some f) b source =
      some (CpoResult.customized (f source)) ∧
    unstoppable_cpo (none : Option (σ → τ)) true source =
      some (CpoResult.wrapped { source_ := source }) ∧
    unstoppable_cpo (some (fun s : σ => s)) b source =
      some (CpoResult.customized source) :=
  ⟨rfl, rfl, rfl⟩

/-- C6: the done relay overload of the inner receiver participates exactly
when the outer receiver supports the cancellation channel, and whenever it
participates its body makes exactly the single success call, never a
cancellation call. -/
theorem set_done_gate_vs_action {E Exc : Type} (caps : ReceiverCaps E)
    (r : OuterReceiver E Exc) :
    (set_done_overload caps r).isSome = caps.set_done_invocable ∧
    (set_done_overload caps r).map (fun out => out.2) =
      (if caps.set_done_invocable then some [OuterCall.set_value]
       else none) := by
  cases hc : caps.set_done_invocable <;>
    cases h : r.on_set_value <;>
      simp [set_done_overload, inner_set_done, hc, h]

/-- C7: after the move constructor runs, the new instance holds the
original back-reference, the moved-from instance holds null, and the
moved-from instance can no longer reach the outer receiver. -/
theorem move_clears_backreference {ρ : Type}
    (other : unstoppable_source_receiver ρ) :
    (moveConstruct other).1.op_ = other.op_ ∧
    (moveConstruct other).2.op_ = none ∧
    get_receiver (moveConstruct other).2 = none := by
  simp [moveConstruct, get_receiver]

/-- C8: unstoppable_sender declares its success shape as the single empty
tuple for every source, and its error shapes exactly as the error shapes
of the wrapped source. -/
theorem unstoppable_sender_shapes {α β : Type} (src : SenderShapes α β) :
    (unstoppableSenderShapes src).value_types = [([] : List α)] ∧
    (unstoppableSenderShapes src).error_types = src.error_types :=
  ⟨rfl, rfl⟩

/-- C9: an exception raised by the success channel of the outer receiver
propagates out of the set_value relay, which is not noexcept, but no
exception can propagate out of the set_done or set_error relays, which are
noexcept. -/
theorem relay_exception_asymmetry {E Exc : Type}
    (onErr : E → Except Exc Unit) (exc : Exc) (r : OuterReceiver E Exc) :
    (inner_set_value
        { on_set_value := Except.error exc, on_set_error := onErr }).1 =
      MethodOutcome.raised exc ∧
    (∀ e : Exc, (inner_set_done r).1 ≠ MethodOutcome.raised e) ∧
    ∀ (err : E) (e : Exc),
      (inner_set_error r err).1 ≠ MethodOutcome.raised e := by
  refine ⟨rfl, fun e => ?_, fun err e => ?_⟩
  · cases h : r.on_set_value <;> simp [inner_set_done, h]
  · cases h : r.on_set_error err <;> simp [inner_set_error, h]

/-- C10: a query customization-point object other than the completion
signals, applied to a const inner receiver with a non-null back-reference,
is forwarded unchanged to the const outer receiver stored in the operation
state and its result returned unchanged. -/
theorem queries_forwarded_unchanged {ρ α β : Type} (cpo : ρ → α → β)
    (op : OpStateView ρ) (arg : α) :
    tagInvokeForward cpo { op_ := some op } arg =
      some (cpo op.receiver_ arg) := by
  simp [tagInvokeForward, get_receiver]
